import Mathlib

/-!
Verification development for the GraphVCS configuration and logging
subsystems (`src/app/config/settings.py` and `src/app/utils/logger.py`).

The Python code is shallowly embedded: filesystem paths are lists of
path components, the process environment (merged with the optional
`.env` file, environment taking precedence, as pydantic-settings does)
is a lookup function `String → Option String`, and pydantic model
construction — which can fail with a validation error — is modelled as
an `Except ConfigError` computation.  The mutable process-wide logger
registry of the `logging` facility is modelled as explicit state
threaded through `setup_logger`.
-/

namespace GraphVCS

/-- Paths are modelled as lists of path components; `p / c` is `p ++ [c]`. -/
abbrev FsPath := List String

/-- Conversion of a string argument to a path (`Path(s)` in Python),
as the list of its nonempty slash-separated components. -/
def pathOfString (s : String) : FsPath :=
  (s.splitOn "/").filter (fun c => c ≠ "")

/-- Validation errors raised during settings construction
(`pydantic.ValidationError` causes), plus the invalid-level-name error
raised later by `getattr(logging, LOG_LEVEL)`. -/
inductive ConfigError where
  | missingRequired (field : String)
  | invalidValue (field : String)
  | invalidLevelName (levelName : String)
deriving DecidableEq, Repr

/-- The `Settings` pydantic model of `src/app/config/settings.py`
(lines 10–48): one field per declared field, same names. -/
structure Settings where
  APP_NAME : String
  APP_VERSION : String
  BASE_DIR : FsPath
  LOGS_DIR : FsPath
  REPO_DIR_NAME : String
  OBJECTS_DIR_NAME : String
  REFS_DIR_NAME : String
  NEO4J_URI : Option String
  NEO4J_USERNAME : Option String
  NEO4J_PASSWORD : Option String
  DEFAULT_USER_NAME : Option String
  DEFAULT_USER_EMAIL : Option String
  LOG_LEVEL : String
  DEBUG : Bool
  LOG_FORMAT : String
  COMPRESSION_ENABLED : Bool
deriving DecidableEq, Repr

/-- The environment, i.e. the merged view of the process environment and
the optional `.env` file (process environment taking precedence), as
pydantic-settings resolves it. -/
abbrev Env := String → Option String

/-- Boolean parsing of an environment string, as pydantic validates
`bool` fields from strings (case-insensitive truthy/falsy words). -/
def parseBool (s : String) : Option Bool :=
  let t := s.toLower
  if t = "true" ∨ t = "t" ∨ t = "yes" ∨ t = "y" ∨ t = "on" ∨ t = "1" then some true
  else if t = "false" ∨ t = "f" ∨ t = "no" ∨ t = "n" ∨ t = "off" ∨ t = "0" then some false
  else none

/-- Resolution of a string field: environment override
(`GRAPHVCS_` + field name, per `env_prefix`) if present, else the
compiled default. -/
def resolveStr (env : Env) (key dflt : String) : String :=
  (env ("GRAPHVCS_" ++ key)).getD dflt

/-- Resolution of an `Optional[str] = None` field: the environment
override if present, else `None`. -/
def resolveOptStr (env : Env) (key : String) : Option String :=
  env ("GRAPHVCS_" ++ key)

/-- Resolution of a `Path` field: the environment override parsed as a
path if present, else the compiled default. -/
def resolvePath (env : Env) (key : String) (dflt : FsPath) : FsPath :=
  match env ("GRAPHVCS_" ++ key) with
  | some s => pathOfString s
  | none => dflt

/-- Resolution of a `bool` field: the environment override, validated,
if present, else the compiled default; an unparsable override is a
validation error. -/
def resolveBool (env : Env) (key : String) (dflt : Bool) : Except ConfigError Bool :=
  match env ("GRAPHVCS_" ++ key) with
  | some s =>
    match parseBool s with
    | some b => .ok b
    | none => .error (.invalidValue key)
  | none => .ok dflt

/-- Resolution of a non-optional `str` field that may or may not have a
compiled default: the environment override if present, else the default;
if the field has no default (`NEO4J_URI: str` in `ProdSettings`),
absence is a missing-required-field validation error. -/
def resolveReqStr (env : Env) (key : String) (dflt : Option String) :
    Except ConfigError String :=
  match env ("GRAPHVCS_" ++ key) with
  | some s => .ok s
  | none =>
    match dflt with
    | some d => .ok d
    | none => .error (.missingRequired key)

/-- Construction of a `Settings` subclass instance.  The three
subclasses (`DevSettings`, `TestSettings`, `ProdSettings`) differ only
in the defaults of `DEBUG`, `LOG_LEVEL` and `NEO4J_URI` (the latter
being required, i.e. defaultless, in `ProdSettings`), so construction is
parameterised by those three defaults.  Fields are resolved in their
declaration order (settings.py lines 14–41), which fixes which
validation error is reported first in this embedding.  `cwd` is the
process working directory (`Path.cwd()`), the default of `BASE_DIR` and
the base of the `LOGS_DIR` default factory. -/
def mkProfileSettings (env : Env) (cwd : FsPath)
    (debugDflt : Bool) (logLevelDflt : String) (neo4jUriDflt : Option String) :
    Except ConfigError Settings := do
  let appName := resolveStr env "APP_NAME" "graphvcs"
  let appVersion := resolveStr env "APP_VERSION" "0.1.0"
  let baseDir := resolvePath env "BASE_DIR" cwd
  let logsDir := resolvePath env "LOGS_DIR" (cwd ++ [".gvcs", "logs"])
  let repoDirName := resolveStr env "REPO_DIR_NAME" ".gvcs"
  let objectsDirName := resolveStr env "OBJECTS_DIR_NAME" "objects"
  let refsDirName := resolveStr env "REFS_DIR_NAME" "refs"
  let neo4jUri ← resolveReqStr env "NEO4J_URI" neo4jUriDflt
  let logLevel := resolveStr env "LOG_LEVEL" logLevelDflt
  let debug ← resolveBool env "DEBUG" debugDflt
  let logFormat :=
    resolveStr env "LOG_FORMAT" "%(asctime)s - %(name)s - %(levelname)s - %(message)s"
  let compression ← resolveBool env "COMPRESSION_ENABLED" true
  .ok {
    APP_NAME := appName
    APP_VERSION := appVersion
    BASE_DIR := baseDir
    LOGS_DIR := logsDir
    REPO_DIR_NAME := repoDirName
    OBJECTS_DIR_NAME := objectsDirName
    REFS_DIR_NAME := refsDirName
    NEO4J_URI := some neo4jUri
    NEO4J_USERNAME := resolveOptStr env "NEO4J_USERNAME"
    NEO4J_PASSWORD := resolveOptStr env "NEO4J_PASSWORD"
    DEFAULT_USER_NAME := resolveOptStr env "DEFAULT_USER_NAME"
    DEFAULT_USER_EMAIL := resolveOptStr env "DEFAULT_USER_EMAIL"
    LOG_LEVEL := logLevel
    DEBUG := debug
    LOG_FORMAT := logFormat
    COMPRESSION_ENABLED := compression }

/-- Construction of `DevSettings` (settings.py lines 66–71):
`DEBUG = True`, `LOG_LEVEL = "DEBUG"`, `NEO4J_URI` defaulting to the
local URI. -/
def mkDevSettings (env : Env) (cwd : FsPath) : Except ConfigError Settings :=
  mkProfileSettings env cwd true "DEBUG" (some "neo4j://localhost:7687")

/-- Construction of `TestSettings` (settings.py lines 74–79): same
overrides as `DevSettings`. -/
def mkTestSettings (env : Env) (cwd : FsPath) : Except ConfigError Settings :=
  mkProfileSettings env cwd true "DEBUG" (some "neo4j://localhost:7687")

/-- Construction of `ProdSettings` (settings.py lines 82–86):
`NEO4J_URI: str` with no default (required), `LOG_LEVEL = "INFO"`,
`DEBUG` inheriting the base default `False`. -/
def mkProdSettings (env : Env) (cwd : FsPath) : Except ConfigError Settings :=
  mkProfileSettings env cwd false "INFO" none

/-- Tags for the three settings subclasses appearing in the
`environments` dictionary. -/
inductive ProfileKind where
  | dev
  | test
  | prod
deriving DecidableEq, Repr

/-- The `environments` dictionary (settings.py lines 101–105). -/
def environments : List (String × ProfileKind) :=
  [("DEVELOPMENT", .dev), ("TEST", .test), ("PRODUCTION", .prod)]

/-- Calling the constructor a `ProfileKind` tags. -/
def constructSettings : ProfileKind → Env → FsPath → Except ConfigError Settings
  | .dev => mkDevSettings
  | .test => mkTestSettings
  | .prod => mkProdSettings

/-- The `get_settings` function (settings.py lines 108–111):
`os.getenv("ENVIRONMENT", "DEVELOPMENT")`, then
`environments.get(env, DevSettings)()`.  `environment` is the value of
the (unprefixed) `ENVIRONMENT` variable, `none` when absent. -/
def get_settings (environment : Option String) (env : Env) (cwd : FsPath) :
    Except ConfigError Settings :=
  let e := environment.getD "DEVELOPMENT"
  constructSettings ((environments.lookup e).getD .dev) env cwd

/-- The `Optional[Union[str, Path]]` argument of the path accessors:
absent (`None`), a string, or a path object. -/
inductive BasePathArg where
  | none
  | str (s : String)
  | path (p : FsPath)
deriving DecidableEq, Repr

/-- Python truthiness of a base-path argument, as tested by
`if base_path` in `get_repo_path`: `None` and the empty string are
falsy; `Path` objects define no `__bool__` and are always truthy. -/
def BasePathArg.truthy : BasePathArg → Bool
  | .none => false
  | .str s => s ≠ ""
  | .path _ => true

/-- Conversion `Path(base_path)` of a truthy base-path argument. -/
def BasePathArg.toPath : BasePathArg → FsPath
  | .none => []
  | .str s => pathOfString s
  | .path p => p

/-- The `Settings.get_repo_path` method (settings.py lines 50–53):
`base / REPO_DIR_NAME` where `base` is the argument when truthy, else
`BASE_DIR`.  A pure path join: no I/O, no existence check. -/
def Settings.get_repo_path (s : Settings) (base_path : BasePathArg) : FsPath :=
  let base := if base_path.truthy then base_path.toPath else s.BASE_DIR
  base ++ [s.REPO_DIR_NAME]

/-- The `Settings.get_objects_path` method (settings.py lines 55–58):
`get_repo_path(base) / OBJECTS_DIR_NAME`. -/
def Settings.get_objects_path (s : Settings) (base_path : BasePathArg) : FsPath :=
  s.get_repo_path base_path ++ [s.OBJECTS_DIR_NAME]

/-- The `Settings.get_refs_path` method (settings.py lines 60–63):
`get_repo_path(base) / REFS_DIR_NAME`. -/
def Settings.get_refs_path (s : Settings) (base_path : BasePathArg) : FsPath :=
  s.get_repo_path base_path ++ [s.REFS_DIR_NAME]

/-! Logging subsystem (`src/app/utils/logger.py`). -/

/-- Numeric logging severity levels, as in the Python `logging` module. -/
abbrev Level := Nat

/-- The `logging.NOTSET` level (the level of a freshly created logger
and of a handler whose level was never set). -/
def NOTSET : Level := 0

/-- The `logging.DEBUG` level. -/
def DEBUG : Level := 10

/-- The `logging.INFO` level. -/
def INFO : Level := 20

/-- The `logging.WARNING` level. -/
def WARNING : Level := 30

/-- The `logging.ERROR` level. -/
def ERROR : Level := 40

/-- The `logging.CRITICAL` level. -/
def CRITICAL : Level := 50

/-- The `getattr(logging, name)` lookup used for
`getattr(logging, settings.LOG_LEVEL)`: the integer level constants the
`logging` module exposes by name; any other name fails
(`AttributeError`). -/
def levelOfName : String → Option Level
  | "NOTSET" => some NOTSET
  | "DEBUG" => some DEBUG
  | "INFO" => some INFO
  | "WARNING" => some WARNING
  | "WARN" => some WARNING
  | "ERROR" => some ERROR
  | "CRITICAL" => some CRITICAL
  | "FATAL" => some CRITICAL
  | _ => none

/-- A log record, restricted to the attributes the default format
template and the formatters consult. -/
structure Record where
  name : String
  levelno : Level
  levelname : String
  asctime : String
  msg : String
deriving DecidableEq, Repr

/-- Base formatting (`logging.Formatter.format`): percent-style
substitution of the record's attributes into the format template. -/
def formatBase (fmt : String) (r : Record) : String :=
  ((((fmt.replace "%(asctime)s" r.asctime).replace "%(name)s" r.name).replace
    "%(levelname)s" r.levelname).replace "%(message)s" r.msg)

/-- The `ColoredFormatter.COLORS` table (logger.py lines 22–28):
severity level to ANSI color code. -/
def COLORS : List (Level × String) :=
  [(DEBUG, "\x1b[37m"), (INFO, "\x1b[36m"), (WARNING, "\x1b[33m"),
   (ERROR, "\x1b[31m"), (CRITICAL, "\x1b[41m")]

/-- The `ColoredFormatter.RESET` code (logger.py line 29). -/
def RESET : String := "\x1b[0m"

/-- The `ColoredFormatter.format` method (logger.py lines 31–41):
`color = self.COLORS.get(record.levelno)` then
`f"{color}{super().format(record)}{self.RESET}"`.  When the level is not
in the table, `COLORS.get` returns `None`, and the f-string renders it
as the four characters `"None"`. -/
def ColoredFormatter.format (fmt : String) (r : Record) : String :=
  let color := match COLORS.lookup r.levelno with
    | some c => c
    | none => "None"
  color ++ formatBase fmt r ++ RESET

/-- A formatter attached to a handler: the plain `logging.Formatter` or
the repository's `ColoredFormatter`, each holding its format template. -/
inductive Formatter where
  | plain (fmt : String)
  | colored (fmt : String)
deriving DecidableEq, Repr

/-- Application of a formatter to a record. -/
def Formatter.format : Formatter → Record → String
  | .plain fmt, r => formatBase fmt r
  | .colored fmt, r => ColoredFormatter.format fmt r

/-- The stream a `StreamHandler` writes to: `sys.stdout` when passed
explicitly (as in `setup_logger`), `sys.stderr` for the no-argument
`StreamHandler()` (as in the module-level root handler). -/
inductive StreamTarget where
  | stdout
  | stderr
deriving DecidableEq, Repr

/-- A handler (sink) attached to a logger: a console `StreamHandler` or
a `RotatingFileHandler` with its file path, rotation threshold in bytes
and backup count.  Each carries its formatter and its own level. -/
inductive Handler where
  | stream (target : StreamTarget) (formatter : Formatter) (level : Level)
  | rotatingFile (path : FsPath) (formatter : Formatter) (level : Level)
      (maxBytes : Nat) (backupCount : Nat)
deriving DecidableEq, Repr

/-- The level threshold of a handler. -/
def Handler.level : Handler → Level
  | .stream _ _ l => l
  | .rotatingFile _ _ l _ _ => l

/-- Whether a handler is a rotating-file handler. -/
def Handler.isRotatingFile : Handler → Bool
  | .stream _ _ _ => false
  | .rotatingFile _ _ _ _ _ => true

/-- A named logger object from the process-wide registry: its minimum
level, propagation flag and attached handlers. -/
structure Logger where
  name : String
  level : Level
  propagate : Bool
  handlers : List Handler
deriving DecidableEq, Repr

/-- The process-wide named-logger registry, keyed by logger name (the
root logger has name `""`). -/
abbrev Registry := List (String × Logger)

/-- The `logging.getLogger(name)` lookup: the existing logger of that
name, or a fresh one (level `NOTSET`, propagating, no handlers). -/
def getLogger (reg : Registry) (name : String) : Logger :=
  match reg.lookup name with
  | some l => l
  | none => { name := name, level := NOTSET, propagate := true, handlers := [] }

/-- Update of the registry entry for a name (registering the logger if
it was fresh). -/
def setLogger (reg : Registry) (name : String) (l : Logger) : Registry :=
  (name, l) :: reg.filter (fun p => p.1 ≠ name)

/-- An observable side effect of logger configuration: creating a log
file's parent directories (`mkdir(parents=True, exist_ok=True)`), or
attaching a handler to a named logger. -/
inductive Event where
  | mkdirParents (p : FsPath)
  | addHandler (loggerName : String) (h : Handler)
deriving DecidableEq, Repr

/-- The logging world state: the logger registry and the trace of side
effects performed, in order. -/
structure LogState where
  registry : Registry
  events : List Event
deriving Repr

/-- The parent directory of a path (`Path.parent`). -/
def parentDir (p : FsPath) : FsPath := p.dropLast

/-- The `setup_logger` function (logger.py lines 44–101).  `stgs` is the
import-time `settings` singleton supplying the defaults
(`name = settings.APP_NAME`, `console_level` falling back to
`getattr(logging, settings.LOG_LEVEL)`, `log_format =
settings.LOG_FORMAT`); callers passing the Python defaults pass
`file_level = DEBUG`, `max_file_size = 5 * 1024 * 1024`,
`backup_count = 5`.  Steps, in source order: resolve the effective
console level; get-or-create the logger; set its level to
`min(console_level, file_level)`; set `propagate = False`; clear the
handlers if `hasHandlers()` (with propagation already off this checks
only the logger's own handlers); attach the colored stdout console
handler; if a log file is given, make its parent directories and attach
the rotating file handler with a plain formatter. -/
def setup_logger (st : LogState) (stgs : Settings)
    (name : String) (log_file : Option FsPath) (console_level : Option Level)
    (file_level : Level) (log_format : String) (max_file_size : Nat)
    (backup_count : Nat) : Except ConfigError (LogState × Logger) := do
  let consoleLevel ← match console_level with
    | some l => pure l
    | none =>
      match levelOfName stgs.LOG_LEVEL with
      | some l => pure l
      | none => throw (.invalidLevelName stgs.LOG_LEVEL)
  let logger := getLogger st.registry name
  let logger := { logger with level := min consoleLevel file_level, propagate := false }
  let logger := if logger.handlers.isEmpty then logger else { logger with handlers := [] }
  let consoleHandler := Handler.stream .stdout (.colored log_format) consoleLevel
  let logger := { logger with handlers := logger.handlers ++ [consoleHandler] }
  match log_file with
  | none =>
    .ok ({ registry := setLogger st.registry name logger,
           events := st.events ++ [.addHandler name consoleHandler] }, logger)
  | some logPath =>
    let fileHandler := Handler.rotatingFile logPath (.plain log_format) file_level
      max_file_size backup_count
    let logger := { logger with handlers := logger.handlers ++ [fileHandler] }
    .ok ({ registry := setLogger st.registry name logger,
           events := st.events ++ [.addHandler name consoleHandler,
             .mkdirParents (parentDir logPath), .addHandler name fileHandler] }, logger)

/-- Last component of a path (`Path.name`; `""` for a componentless
path). -/
def pathName (p : FsPath) : String := p.getLast?.getD ""

/-- The `get_repository_logger` function (logger.py lines 104–129):
derives the logger name `f"{settings.APP_NAME}.{repo_name}"` from the
repository folder name, the log file
`settings.get_repo_path(repo_path) / "logs" / f"{settings.APP_NAME}.log"`,
and delegates to `setup_logger` with every other parameter at its
default. -/
def get_repository_logger (st : LogState) (stgs : Settings) (repo_path : FsPath) :
    Except ConfigError (LogState × Logger) :=
  let repo_name := pathName repo_path
  let log_file := stgs.get_repo_path (.path repo_path) ++
    ["logs", stgs.APP_NAME ++ ".log"]
  setup_logger st stgs (stgs.APP_NAME ++ "." ++ repo_name) (some log_file) none
    DEBUG stgs.LOG_FORMAT (5 * 1024 * 1024) 5

/-- Dotted joins of every nonempty prefix of a name's component list,
longest first: the proper ancestors of a logger name are obtained by
successively dropping the last dotted component. -/
def ancestorNames : List String → List String
  | [] => []
  | p :: ps => (String.intercalate "." (p :: ps)) :: ancestorNames (p :: ps).dropLast
termination_by ps => ps.length
decreasing_by
  simp [List.length_dropLast]

/-- The chain of logger names consulted when a record is dispatched
through a named logger: the logger itself, then its dotted ancestors,
then the root logger `""` (which is the whole chain when the name is
already the root's). -/
def ancestorChain (name : String) : List String :=
  name ::
    (if name = "" then []
     else ancestorNames (name.splitOn ".").dropLast ++ [""])

/-- Record dispatch (`Logger.callHandlers`): walking the named logger
and then its ancestors, each logger's handlers whose level does not
exceed the record's receive it; the walk stops at the first logger with
propagation disabled.  Returns the receiving handlers in order. -/
def callHandlersFrom (reg : Registry) (chain : List String) (levelno : Level) :
    List Handler :=
  match chain with
  | [] => []
  | n :: rest =>
    let l := getLogger reg n
    l.handlers.filter (fun h => h.level ≤ levelno) ++
      (if l.propagate then callHandlersFrom reg rest levelno else [])

/-- The handlers that receive a record logged at `levelno` through the
logger named `name`. -/
def callHandlers (reg : Registry) (name : String) (levelno : Level) : List Handler :=
  callHandlersFrom reg (ancestorChain name) levelno

/-- The module-level side effects of importing `app.utils.logger`
(logger.py lines 132–139): `logger = setup_logger()` with every
parameter at its default, then, if the root logger has no handlers,
attach a plain `StreamHandler()` (stderr, handler level `NOTSET`) with
the settings' format and set the root logger's level to `WARNING`. -/
def importLoggerModule (st : LogState) (stgs : Settings) :
    Except ConfigError LogState := do
  let (st, _logger) ← setup_logger st stgs stgs.APP_NAME none none DEBUG
    stgs.LOG_FORMAT (5 * 1024 * 1024) 5
  let root := getLogger st.registry ""
  if root.handlers.isEmpty then
    let rootHandler := Handler.stream .stderr (.plain stgs.LOG_FORMAT) NOTSET
    let root := { root with handlers := root.handlers ++ [rootHandler] }
    let root := { root with level := WARNING }
    .ok { registry := setLogger st.registry "" root,
          events := st.events ++ [.addHandler "" rootHandler] }
  else
    .ok st

/-! Helper lemmas shared by the claim theorems. -/

/-- Bind of a successful `Except` computation. -/
@[simp] theorem exceptBind_ok {ε α β : Type} (a : α) (f : α → Except ε β) :
    (Except.ok a >>= f) = f a := rfl

/-- Bind of a failed `Except` computation. -/
@[simp] theorem exceptBind_error {ε α β : Type} (e : ε) (f : α → Except ε β) :
    ((Except.error e : Except ε α) >>= f) = .error e := rfl

/-- Selecting `"PRODUCTION"` dispatches to the `ProdSettings`
constructor. -/
theorem get_settings_production (env : Env) (cwd : FsPath) :
    get_settings (some "PRODUCTION") env cwd = mkProdSettings env cwd := rfl

/-- Looking a name up right after registering a logger under it yields
that logger. -/
@[simp] theorem getLogger_setLogger_self (reg : Registry) (n : String) (l : Logger) :
    getLogger (setLogger reg n l) n = l := by
  simp [getLogger, setLogger]

/-- Unfolding of an association-list lookup over a cons cell, with a
propositional key comparison. -/
@[simp] theorem lookup_cons_eq {β : Type} (a k : String) (b : β) (es : List (String × β)) :
    List.lookup a ((k, b) :: es) = if a = k then some b else List.lookup a es := by
  simp only [List.lookup]
  cases h : a == k <;> simp_all

/-- Lookup of a key distinct from `n` ignores the entries filtered out
by `setLogger`. -/
theorem lookup_filter_ne {β : Type} (es : List (String × β)) (n m : String)
    (h : m ≠ n) :
    List.lookup m (es.filter (fun p => p.1 ≠ n)) = List.lookup m es := by
  induction es with
  | nil => rfl
  | cons p t ih =>
    obtain ⟨k, b⟩ := p
    simp only [decide_not] at ih
    by_cases hk : k = n
    · subst hk
      simp [List.filter, h, decide_not, ih]
    · by_cases hm : m = k <;> simp [List.filter, hk, hm, decide_not, ih]

/-- Registering a logger under one name leaves every other name's
lookup unchanged. -/
theorem getLogger_setLogger_ne (reg : Registry) (n m : String) (l : Logger)
    (h : m ≠ n) : getLogger (setLogger reg n l) m = getLogger reg m := by
  simp only [getLogger, setLogger, lookup_cons_eq, h, if_false,
    lookup_filter_ne reg n m h]

/-- Resolution of a non-optional string field that does have a compiled
default never fails: it yields the override when present, else the
default. -/
theorem resolveReqStr_some_default (env : Env) (key d : String) :
    resolveReqStr env key (some d) = .ok ((env ("GRAPHVCS_" ++ key)).getD d) := by
  unfold resolveReqStr
  cases h : env ("GRAPHVCS_" ++ key) <;> simp [h]

/-- Characterisation of a successful profile construction: when the
database URI resolves and the two boolean fields carry no environment
override, construction succeeds with every field at its resolved
value. -/
theorem mkProfileSettings_ok (env : Env) (cwd : FsPath) (d : Bool) (ll : String)
    (uriD : Option String) (u : String)
    (hu : resolveReqStr env "NEO4J_URI" uriD = .ok u)
    (hdbg : env "GRAPHVCS_DEBUG" = none)
    (hcmp : env "GRAPHVCS_COMPRESSION_ENABLED" = none) :
    mkProfileSettings env cwd d ll uriD = .ok {
      APP_NAME := resolveStr env "APP_NAME" "graphvcs"
      APP_VERSION := resolveStr env "APP_VERSION" "0.1.0"
      BASE_DIR := resolvePath env "BASE_DIR" cwd
      LOGS_DIR := resolvePath env "LOGS_DIR" (cwd ++ [".gvcs", "logs"])
      REPO_DIR_NAME := resolveStr env "REPO_DIR_NAME" ".gvcs"
      OBJECTS_DIR_NAME := resolveStr env "OBJECTS_DIR_NAME" "objects"
      REFS_DIR_NAME := resolveStr env "REFS_DIR_NAME" "refs"
      NEO4J_URI := some u
      NEO4J_USERNAME := resolveOptStr env "NEO4J_USERNAME"
      NEO4J_PASSWORD := resolveOptStr env "NEO4J_PASSWORD"
      DEFAULT_USER_NAME := resolveOptStr env "DEFAULT_USER_NAME"
      DEFAULT_USER_EMAIL := resolveOptStr env "DEFAULT_USER_EMAIL"
      LOG_LEVEL := resolveStr env "LOG_LEVEL" ll
      DEBUG := d
      LOG_FORMAT := resolveStr env "LOG_FORMAT"
        "%(asctime)s - %(name)s - %(levelname)s - %(message)s"
      COMPRESSION_ENABLED := true } := by
  simp [mkProfileSettings, resolveBool, hu, hdbg, hcmp]

/-- An environment selector matching none of the three dictionary keys
looks up to nothing. -/
theorem environments_lookup_unknown (sel : String)
    (h1 : sel ≠ "DEVELOPMENT") (h2 : sel ≠ "TEST") (h3 : sel ≠ "PRODUCTION") :
    environments.lookup sel = none := by
  simp [environments, h1, h2, h3]

/-- C1: constructing the production profile without a
`GRAPHVCS_NEO4J_URI` environment override fails with the
missing-required-configuration error for `NEO4J_URI`; with the override
present (and no boolean-field override in the way), construction
succeeds and the profile's `NEO4J_URI` is exactly the overridden
value. -/
theorem C1_production_uri_requirement (env1 env2 : Env) (cwd : FsPath) (u : String)
    (h1 : env1 "GRAPHVCS_NEO4J_URI" = none)
    (h2 : env2 "GRAPHVCS_NEO4J_URI" = some u)
    (h3 : env2 "GRAPHVCS_DEBUG" = none)
    (h4 : env2 "GRAPHVCS_COMPRESSION_ENABLED" = none) :
    get_settings (some "PRODUCTION") env1 cwd = .error (.missingRequired "NEO4J_URI") ∧
    ∃ s, get_settings (some "PRODUCTION") env2 cwd = .ok s ∧ s.NEO4J_URI = some u := by
  rw [get_settings_production, get_settings_production]
  constructor
  · simp [mkProdSettings, mkProfileSettings, resolveReqStr, h1]
  · exact ⟨_, mkProfileSettings_ok env2 cwd false "INFO" none u (by simp [resolveReqStr, h2])
      h3 h4, rfl⟩

/-- Witness for C1 at a concrete environment and working directory. -/
theorem C1_production_uri_requirement_witness :
    get_settings (some "PRODUCTION") (fun _ => none) ["srv"] =
      .error (.missingRequired "NEO4J_URI") ∧
    ∃ s, get_settings (some "PRODUCTION")
        (fun k => if k = "GRAPHVCS_NEO4J_URI" then some "bolt://db:7687" else none)
        ["srv"] = .ok s ∧
      s.NEO4J_URI = some "bolt://db:7687" :=
  C1_production_uri_requirement _ _ ["srv"] "bolt://db:7687" rfl (by simp)
    (by simp) (by simp)

/-- C2: every selector other than the three dictionary keys makes
`get_settings` fall back to constructing the development profile, which
(absent boolean-field overrides) succeeds rather than raising; an
absent selector defaults to `"DEVELOPMENT"`, which also constructs the
development profile. -/
theorem C2_unknown_selector_falls_back (sel : String) (env : Env) (cwd : FsPath)
    (h1 : sel ≠ "DEVELOPMENT") (h2 : sel ≠ "TEST") (h3 : sel ≠ "PRODUCTION")
    (hdbg : env "GRAPHVCS_DEBUG" = none)
    (hcmp : env "GRAPHVCS_COMPRESSION_ENABLED" = none) :
    get_settings (some sel) env cwd = mkDevSettings env cwd ∧
    (∃ s, get_settings (some sel) env cwd = .ok s) ∧
    get_settings none env cwd = mkDevSettings env cwd := by
  have hfb : get_settings (some sel) env cwd = mkDevSettings env cwd := by
    simp [get_settings, environments_lookup_unknown sel h1 h2 h3, constructSettings]
  refine ⟨hfb, ?_, rfl⟩
  rw [hfb]
  exact ⟨_, mkProfileSettings_ok env cwd true "DEBUG" (some "neo4j://localhost:7687") _
    (resolveReqStr_some_default env "NEO4J_URI" "neo4j://localhost:7687") hdbg hcmp⟩

/-- Witness for C2 at the concrete unknown selector `"STAGING"`. -/
theorem C2_unknown_selector_falls_back_witness :
    get_settings (some "STAGING") (fun _ => none) ["srv"] =
      mkDevSettings (fun _ => none) ["srv"] ∧
    (∃ s, get_settings (some "STAGING") (fun _ => none) ["srv"] = .ok s) ∧
    get_settings none (fun _ => none) ["srv"] = mkDevSettings (fun _ => none) ["srv"] :=
  C2_unknown_selector_falls_back "STAGING" _ ["srv"] (by decide) (by decide)
    (by decide) rfl rfl

/-- C3: under the compiled default directory names, the repository,
objects and refs accessors are the pure joins `base / ".gvcs"`,
`base / ".gvcs" / "objects"` and `base / ".gvcs" / "refs"`, and with the
base argument omitted they use the profile's `BASE_DIR` as the base.
They are plain functions of the settings and the argument, performing no
I/O and no existence checks. -/
theorem C3_derived_path_accessors (s : Settings) (b : FsPath)
    (hr : s.REPO_DIR_NAME = ".gvcs") (ho : s.OBJECTS_DIR_NAME = "objects")
    (hf : s.REFS_DIR_NAME = "refs") :
    s.get_repo_path (.path b) = b ++ [".gvcs"] ∧
    s.get_objects_path (.path b) = b ++ [".gvcs", "objects"] ∧
    s.get_refs_path (.path b) = b ++ [".gvcs", "refs"] ∧
    s.get_repo_path .none = s.BASE_DIR ++ [".gvcs"] ∧
    s.get_objects_path .none = s.BASE_DIR ++ [".gvcs", "objects"] ∧
    s.get_refs_path .none = s.BASE_DIR ++ [".gvcs", "refs"] := by
  simp [Settings.get_repo_path, Settings.get_objects_path, Settings.get_refs_path,
    BasePathArg.truthy, BasePathArg.toPath, hr, ho, hf]

/-- A concrete settings value (the development-profile defaults under an
empty environment, with working directory `/home/user`) for
instantiating theorems. -/
def sampleSettings : Settings where
  APP_NAME := "graphvcs"
  APP_VERSION := "0.1.0"
  BASE_DIR := ["home", "user"]
  LOGS_DIR := ["home", "user", ".gvcs", "logs"]
  REPO_DIR_NAME := ".gvcs"
  OBJECTS_DIR_NAME := "objects"
  REFS_DIR_NAME := "refs"
  NEO4J_URI := some "neo4j://localhost:7687"
  NEO4J_USERNAME := none
  NEO4J_PASSWORD := none
  DEFAULT_USER_NAME := none
  DEFAULT_USER_EMAIL := none
  LOG_LEVEL := "DEBUG"
  DEBUG := true
  LOG_FORMAT := "%(asctime)s - %(name)s - %(levelname)s - %(message)s"
  COMPRESSION_ENABLED := true

/-- Witness for C3 at the sample settings and a concrete base path. -/
theorem C3_derived_path_accessors_witness :
    sampleSettings.get_repo_path (.path ["tmp", "repo"]) = ["tmp", "repo", ".gvcs"] ∧
    sampleSettings.get_objects_path (.path ["tmp", "repo"]) =
      ["tmp", "repo", ".gvcs", "objects"] ∧
    sampleSettings.get_refs_path (.path ["tmp", "repo"]) =
      ["tmp", "repo", ".gvcs", "refs"] ∧
    sampleSettings.get_repo_path .none = sampleSettings.BASE_DIR ++ [".gvcs"] ∧
    sampleSettings.get_objects_path .none =
      sampleSettings.BASE_DIR ++ [".gvcs", "objects"] ∧
    sampleSettings.get_refs_path .none =
      sampleSettings.BASE_DIR ++ [".gvcs", "refs"] :=
  C3_derived_path_accessors sampleSettings ["tmp", "repo"] rfl rfl rfl

/-- Coercion of `pure` into the `Except` success constructor. -/
@[simp] theorem pureExcept {ε α : Type} (a : α) :
    (pure a : Except ε α) = .ok a := rfl

/-- Clearing-or-keeping a handler list that is about to be cleared when
nonempty always leaves it empty. -/
theorem clearHandlers_handlers (lg : Logger) :
    (if lg.handlers.isEmpty then lg else { lg with handlers := [] }).handlers = [] := by
  cases h : lg.handlers <;> simp [h]

/-- The clear-or-keep step does not change the logger's level. -/
theorem clearHandlers_level (lg : Logger) :
    (if lg.handlers.isEmpty then lg else { lg with handlers := [] }).level = lg.level := by
  split <;> rfl

/-- The clear-or-keep step does not change the propagation flag. -/
theorem clearHandlers_propagate (lg : Logger) :
    (if lg.handlers.isEmpty then lg else { lg with handlers := [] }).propagate =
      lg.propagate := by
  split <;> rfl

/-- Characterisation of a successful `setup_logger` call: when the
effective console level `ce` resolves (explicitly or from the settings'
level name), the call succeeds; the resulting logger has level
`min ce file_level`, propagation off, and exactly the console sink
followed by the optional rotating file sink; the registry maps the name
to that logger; and the event trace extends by attaching the console
handler, then — when a log file is given — making its parent
directories and only then attaching the file handler. -/
theorem setup_logger_spec_noFile (st : LogState) (stgs : Settings) (name : String)
    (console_level : Option Level) (file_level : Level)
    (log_format : String) (max_file_size backup_count : Nat) (ce : Level)
    (hce : console_level = some ce ∨
      console_level = none ∧ levelOfName stgs.LOG_LEVEL = some ce) :
    ∃ st' l,
      setup_logger st stgs name none console_level file_level log_format
        max_file_size backup_count = .ok (st', l) ∧
      l.level = min ce file_level ∧
      l.propagate = false ∧
      l.handlers = [Handler.stream .stdout (.colored log_format) ce] ∧
      st'.registry = setLogger st.registry name l ∧
      st'.events = st.events ++
        [Event.addHandler name (Handler.stream .stdout (.colored log_format) ce)] := by
  obtain rfl | ⟨rfl, hl⟩ := hce
  · refine ⟨_, _, rfl, ?_, ?_, ?_, rfl, rfl⟩
    · exact clearHandlers_level _
    · exact clearHandlers_propagate _
    · cases h : (getLogger st.registry name).handlers <;> simp [h]
  · have heq : setup_logger st stgs name none none file_level log_format
        max_file_size backup_count =
        setup_logger st stgs name none (some ce) file_level log_format
          max_file_size backup_count := by
      simp only [setup_logger, hl, pureExcept, exceptBind_ok]
    rw [heq]
    refine ⟨_, _, rfl, ?_, ?_, ?_, rfl, rfl⟩
    · exact clearHandlers_level _
    · exact clearHandlers_propagate _
    · cases h : (getLogger st.registry name).handlers <;> simp [h]

/-- Characterisation of a successful `setup_logger` call with a log
file, analogous to the no-file case: additionally the rotating file
sink follows the console sink, and the event trace records the parent
directory creation after the console attach and before the file-handler
attach. -/
theorem setup_logger_spec_file (st : LogState) (stgs : Settings) (name : String)
    (p : FsPath) (console_level : Option Level) (file_level : Level)
    (log_format : String) (max_file_size backup_count : Nat) (ce : Level)
    (hce : console_level = some ce ∨
      console_level = none ∧ levelOfName stgs.LOG_LEVEL = some ce) :
    ∃ st' l,
      setup_logger st stgs name (some p) console_level file_level log_format
        max_file_size backup_count = .ok (st', l) ∧
      l.level = min ce file_level ∧
      l.propagate = false ∧
      l.handlers = [Handler.stream .stdout (.colored log_format) ce,
        Handler.rotatingFile p (.plain log_format) file_level max_file_size
          backup_count] ∧
      st'.registry = setLogger st.registry name l ∧
      st'.events = st.events ++
        [Event.addHandler name (Handler.stream .stdout (.colored log_format) ce),
         Event.mkdirParents (parentDir p),
         Event.addHandler name (Handler.rotatingFile p (.plain log_format)
           file_level max_file_size backup_count)] := by
  obtain rfl | ⟨rfl, hl⟩ := hce
  · refine ⟨_, _, rfl, ?_, ?_, ?_, rfl, rfl⟩
    · exact clearHandlers_level _
    · exact clearHandlers_propagate _
    · cases h : (getLogger st.registry name).handlers <;> simp [h]
  · have heq : setup_logger st stgs name (some p) none file_level log_format
        max_file_size backup_count =
        setup_logger st stgs name (some p) (some ce) file_level log_format
          max_file_size backup_count := by
      simp only [setup_logger, hl, pureExcept, exceptBind_ok]
    rw [heq]
    refine ⟨_, _, rfl, ?_, ?_, ?_, rfl, rfl⟩
    · exact clearHandlers_level _
    · exact clearHandlers_propagate _
    · cases h : (getLogger st.registry name).handlers <;> simp [h]

/-- Combined characterisation of a successful `setup_logger` call over
an optional log file (events omitted): the resulting logger carries
exactly the console sink followed by the optional rotating file sink,
and is registered under its name. -/
theorem setup_logger_spec (st : LogState) (stgs : Settings) (name : String)
    (log_file : Option FsPath) (console_level : Option Level) (file_level : Level)
    (log_format : String) (max_file_size backup_count : Nat) (ce : Level)
    (hce : console_level = some ce ∨
      console_level = none ∧ levelOfName stgs.LOG_LEVEL = some ce) :
    ∃ st' l,
      setup_logger st stgs name log_file console_level file_level log_format
        max_file_size backup_count = .ok (st', l) ∧
      l.level = min ce file_level ∧
      l.propagate = false ∧
      l.handlers = Handler.stream .stdout (.colored log_format) ce ::
        (log_file.map (fun p => Handler.rotatingFile p (.plain log_format)
          file_level max_file_size backup_count)).toList ∧
      st'.registry = setLogger st.registry name l := by
  cases log_file with
  | none =>
    obtain ⟨st', l, h1, h2, h3, h4, h5, _⟩ := setup_logger_spec_noFile st stgs name
      console_level file_level log_format max_file_size backup_count ce hce
    exact ⟨st', l, h1, h2, h3, by simp [h4], h5⟩
  | some p =>
    obtain ⟨st', l, h1, h2, h3, h4, h5, _⟩ := setup_logger_spec_file st stgs name p
      console_level file_level log_format max_file_size backup_count ce hce
    exact ⟨st', l, h1, h2, h3, by simp [h4], h5⟩

/-- C4: calling `setup_logger` twice under the same name leaves
attached exactly the sinks created by the second call: at re-invocation
the handle has sinks (those of the first call), they are all removed,
and the handle ends up with precisely the second call's console sink and
optional file sink — sinks do not accumulate. -/
theorem C4_reconfiguration_replaces_sinks (st : LogState) (stgs1 stgs2 : Settings)
    (name : String) (f1 f2 : Option FsPath) (c1 c2 : Option Level)
    (fl1 fl2 : Level) (fmt1 fmt2 : String) (m1 m2 b1 b2 : Nat) (ce1 ce2 : Level)
    (hce1 : c1 = some ce1 ∨ c1 = none ∧ levelOfName stgs1.LOG_LEVEL = some ce1)
    (hce2 : c2 = some ce2 ∨ c2 = none ∧ levelOfName stgs2.LOG_LEVEL = some ce2) :
    ∃ st1 l1 st2 l2,
      setup_logger st stgs1 name f1 c1 fl1 fmt1 m1 b1 = .ok (st1, l1) ∧
      setup_logger st1 stgs2 name f2 c2 fl2 fmt2 m2 b2 = .ok (st2, l2) ∧
      (getLogger st1.registry name).handlers ≠ [] ∧
      l2.handlers = Handler.stream .stdout (.colored fmt2) ce2 ::
        (f2.map (fun p => Handler.rotatingFile p (.plain fmt2) fl2 m2 b2)).toList ∧
      getLogger st2.registry name = l2 := by
  obtain ⟨st1, l1, h1, _, _, hh1, hr1⟩ :=
    setup_logger_spec st stgs1 name f1 c1 fl1 fmt1 m1 b1 ce1 hce1
  obtain ⟨st2, l2, h2, _, _, hh2, hr2⟩ :=
    setup_logger_spec st1 stgs2 name f2 c2 fl2 fmt2 m2 b2 ce2 hce2
  refine ⟨st1, l1, st2, l2, h1, h2, ?_, hh2, ?_⟩
  · rw [hr1, getLogger_setLogger_self]
    simp [hh1]
  · rw [hr2, getLogger_setLogger_self]

/-- Witness for C4: a first call attaching a console sink, then a second
call with a log file; only the second call's two sinks remain. -/
theorem C4_reconfiguration_replaces_sinks_witness :
    ∃ st1 l1 st2 l2,
      setup_logger ⟨[], []⟩ sampleSettings "gv" none (some 20) 10
        "%(message)s" 100 2 = .ok (st1, l1) ∧
      setup_logger st1 sampleSettings "gv" (some ["r", ".gvcs", "logs", "gv.log"])
        (some 30) 10 "%(message)s" 100 2 = .ok (st2, l2) ∧
      (getLogger st1.registry "gv").handlers ≠ [] ∧
      l2.handlers = Handler.stream .stdout (.colored "%(message)s") 30 ::
        ((some ["r", ".gvcs", "logs", "gv.log"]).map
          (fun p => Handler.rotatingFile p (.plain "%(message)s") 10 100 2)).toList ∧
      getLogger st2.registry "gv" = l2 :=
  C4_reconfiguration_replaces_sinks ⟨[], []⟩ sampleSettings sampleSettings "gv"
    none (some ["r", ".gvcs", "logs", "gv.log"]) (some 20) (some 30) 10 10
    "%(message)s" "%(message)s" 100 100 2 2 20 30 (Or.inl rfl) (Or.inl rfl)

/-- C7: the effective console level is the explicit argument when
supplied, else the level named by the profile's `LOG_LEVEL`; the console
sink is attached at that level and the logger's own minimum level is the
lesser of the effective console level and the file level. -/
theorem C7_effective_levels (st : LogState) (stgs : Settings) (name : String)
    (f : Option FsPath) (c : Option Level) (fl : Level) (fmt : String)
    (m b : Nat) (ce : Level)
    (hce : c = some ce ∨ c = none ∧ levelOfName stgs.LOG_LEVEL = some ce) :
    ∃ st' l, setup_logger st stgs name f c fl fmt m b = .ok (st', l) ∧
      l.handlers.head? = some (Handler.stream .stdout (.colored fmt) ce) ∧
      l.level = min ce fl := by
  obtain ⟨st', l, h1, h2, _, h4, _⟩ := setup_logger_spec st stgs name f c fl fmt m b ce hce
  exact ⟨st', l, h1, by simp [h4], h2⟩

/-- Witness for C7 with the console level left to default to the sample
profile's `LOG_LEVEL = "DEBUG"` (level 10) against file level 20. -/
theorem C7_effective_levels_witness :
    ∃ st' l, setup_logger ⟨[], []⟩ sampleSettings "gv" none none 20
        "%(message)s" 100 2 = .ok (st', l) ∧
      l.handlers.head? = some (Handler.stream .stdout (.colored "%(message)s") 10) ∧
      l.level = min 10 20 :=
  C7_effective_levels ⟨[], []⟩ sampleSettings "gv" none none 20 "%(message)s"
    100 2 10 (Or.inr ⟨rfl, rfl⟩)

/-- C8: a logger configured by `setup_logger` has propagation disabled,
and dispatching a record of any severity through it reaches exactly the
logger's own (sufficiently leveled) handlers — none of any ancestor or
root logger. -/
theorem C8_no_propagation (st : LogState) (stgs : Settings) (name : String)
    (f : Option FsPath) (c : Option Level) (fl : Level) (fmt : String)
    (m b : Nat) (ce levelno : Level)
    (hce : c = some ce ∨ c = none ∧ levelOfName stgs.LOG_LEVEL = some ce) :
    ∃ st' l, setup_logger st stgs name f c fl fmt m b = .ok (st', l) ∧
      l.propagate = false ∧
      callHandlers st'.registry name levelno =
        l.handlers.filter (fun hd => hd.level ≤ levelno) := by
  obtain ⟨st', l, h1, _, h3, _, h5⟩ := setup_logger_spec st stgs name f c fl fmt m b ce hce
  have hg : getLogger st'.registry name = l := by rw [h5, getLogger_setLogger_self]
  refine ⟨st', l, h1, h3, ?_⟩
  simp [callHandlers, ancestorChain, callHandlersFrom, hg, h3]

/-- Witness for C8 at a concrete dotted name, so the ancestor chain is
nontrivial, and at severity 30. -/
theorem C8_no_propagation_witness :
    ∃ st' l, setup_logger ⟨[], []⟩ sampleSettings "graphvcs.repo" none (some 20)
        10 "%(message)s" 100 2 = .ok (st', l) ∧
      l.propagate = false ∧
      callHandlers st'.registry "graphvcs.repo" 30 =
        l.handlers.filter (fun hd => hd.level ≤ 30) :=
  C8_no_propagation ⟨[], []⟩ sampleSettings "graphvcs.repo" none (some 20) 10
    "%(message)s" 100 2 20 30 (Or.inl rfl)

/-- C9: without a log-file argument `setup_logger` succeeds, attaching
only the console sink (no rotating file sink, no directory creation);
with a log file, the parent directories are created after the console
attach and before the rotating sink is attached, as the event trace
records in order. -/
theorem C9_optional_file_sink (st : LogState) (stgs : Settings) (name : String)
    (c : Option Level) (fl : Level) (fmt : String) (m b : Nat) (p : FsPath)
    (ce : Level)
    (hce : c = some ce ∨ c = none ∧ levelOfName stgs.LOG_LEVEL = some ce) :
    (∃ st' l, setup_logger st stgs name none c fl fmt m b = .ok (st', l) ∧
      l.handlers = [Handler.stream .stdout (.colored fmt) ce] ∧
      (∀ hd ∈ l.handlers, hd.isRotatingFile = false) ∧
      st'.events = st.events ++
        [Event.addHandler name (Handler.stream .stdout (.colored fmt) ce)]) ∧
    (∃ st' l, setup_logger st stgs name (some p) c fl fmt m b = .ok (st', l) ∧
      st'.events = st.events ++
        [Event.addHandler name (Handler.stream .stdout (.colored fmt) ce),
         Event.mkdirParents (parentDir p),
         Event.addHandler name (Handler.rotatingFile p (.plain fmt) fl m b)]) := by
  constructor
  · obtain ⟨st', l, h1, _, _, h4, _, h6⟩ := setup_logger_spec_noFile st stgs name
      c fl fmt m b ce hce
    refine ⟨st', l, h1, h4, ?_, h6⟩
    intro hd hmem
    rw [h4] at hmem
    simp only [List.mem_singleton] at hmem
    rw [hmem]
    rfl
  · obtain ⟨st', l, h1, _, _, _, _, h6⟩ := setup_logger_spec_file st stgs name p
      c fl fmt m b ce hce
    exact ⟨st', l, h1, h6⟩

/-- Witness for C9 at a concrete name, level and log-file path. -/
theorem C9_optional_file_sink_witness :
    (∃ st' l, setup_logger ⟨[], []⟩ sampleSettings "gv" none (some 20) 10
        "%(message)s" 100 2 = .ok (st', l) ∧
      l.handlers = [Handler.stream .stdout (.colored "%(message)s") 20] ∧
      (∀ hd ∈ l.handlers, hd.isRotatingFile = false) ∧
      st'.events = [] ++
        [Event.addHandler "gv" (Handler.stream .stdout (.colored "%(message)s") 20)]) ∧
    (∃ st' l, setup_logger ⟨[], []⟩ sampleSettings "gv"
        (some ["r", ".gvcs", "logs", "gv.log"]) (some 20) 10 "%(message)s" 100 2 =
        .ok (st', l) ∧
      st'.events = [] ++
        [Event.addHandler "gv" (Handler.stream .stdout (.colored "%(message)s") 20),
         Event.mkdirParents (parentDir ["r", ".gvcs", "logs", "gv.log"]),
         Event.addHandler "gv" (Handler.rotatingFile ["r", ".gvcs", "logs", "gv.log"]
           (.plain "%(message)s") 10 100 2)]) :=
  C9_optional_file_sink ⟨[], []⟩ sampleSettings "gv" (some 20) 10 "%(message)s"
    100 2 ["r", ".gvcs", "logs", "gv.log"] 20 (Or.inl rfl)

/-- C6: under the default repository directory name, the repository
logger for a path `p` delegates to `setup_logger` with the derived name
`<appName>.<base name of p>` and the derived log file
`p / ".gvcs" / "logs" / "<appName>.log"`, every other parameter at its
default; the registry then maps that dotted name to a handle whose file
sink targets exactly that path. -/
theorem C6_repository_logger (st : LogState) (stgs : Settings) (p : FsPath)
    (ce : Level)
    (hr : stgs.REPO_DIR_NAME = ".gvcs")
    (hce : levelOfName stgs.LOG_LEVEL = some ce) :
    get_repository_logger st stgs p =
      setup_logger st stgs (stgs.APP_NAME ++ "." ++ pathName p)
        (some (p ++ [".gvcs", "logs", stgs.APP_NAME ++ ".log"])) none DEBUG
        stgs.LOG_FORMAT (5 * 1024 * 1024) 5 ∧
    ∃ st' l, get_repository_logger st stgs p = .ok (st', l) ∧
      getLogger st'.registry (stgs.APP_NAME ++ "." ++ pathName p) = l ∧
      l.handlers = [Handler.stream .stdout (.colored stgs.LOG_FORMAT) ce,
        Handler.rotatingFile (p ++ [".gvcs", "logs", stgs.APP_NAME ++ ".log"])
          (.plain stgs.LOG_FORMAT) DEBUG (5 * 1024 * 1024) 5] := by
  have hdel : get_repository_logger st stgs p =
      setup_logger st stgs (stgs.APP_NAME ++ "." ++ pathName p)
        (some (p ++ [".gvcs", "logs", stgs.APP_NAME ++ ".log"])) none DEBUG
        stgs.LOG_FORMAT (5 * 1024 * 1024) 5 := by
    simp [get_repository_logger, Settings.get_repo_path, BasePathArg.truthy,
      BasePathArg.toPath, hr]
  refine ⟨hdel, ?_⟩
  obtain ⟨st', l, h1, _, _, h4, h5, _⟩ := setup_logger_spec_file st stgs
    (stgs.APP_NAME ++ "." ++ pathName p)
    (p ++ [".gvcs", "logs", stgs.APP_NAME ++ ".log"]) none DEBUG
    stgs.LOG_FORMAT (5 * 1024 * 1024) 5 ce (Or.inr ⟨rfl, hce⟩)
  refine ⟨st', l, hdel.trans h1, ?_, h4⟩
  rw [h5, getLogger_setLogger_self]

/-- Witness for C6 at the sample settings and repository path
`/a/b/myrepo`. -/
theorem C6_repository_logger_witness :
    get_repository_logger ⟨[], []⟩ sampleSettings ["a", "b", "myrepo"] =
      setup_logger ⟨[], []⟩ sampleSettings
        ("graphvcs" ++ "." ++ pathName ["a", "b", "myrepo"])
        (some (["a", "b", "myrepo"] ++ [".gvcs", "logs", "graphvcs" ++ ".log"]))
        none DEBUG sampleSettings.LOG_FORMAT (5 * 1024 * 1024) 5 ∧
    ∃ st' l, get_repository_logger ⟨[], []⟩ sampleSettings ["a", "b", "myrepo"] =
        .ok (st', l) ∧
      getLogger st'.registry ("graphvcs" ++ "." ++ pathName ["a", "b", "myrepo"]) = l ∧
      l.handlers = [Handler.stream .stdout (.colored sampleSettings.LOG_FORMAT) 10,
        Handler.rotatingFile
          (["a", "b", "myrepo"] ++ [".gvcs", "logs", "graphvcs" ++ ".log"])
          (.plain sampleSettings.LOG_FORMAT) DEBUG (5 * 1024 * 1024) 5] :=
  C6_repository_logger ⟨[], []⟩ sampleSettings ["a", "b", "myrepo"] 10 rfl rfl

/-- C10: importing the logging module configures the application-named
logger via a default `setup_logger` call, and — when the root logger has
no handlers at import time — attaches a plain (non-colored) console
handler to the root logger and raises the root logger's level to
`WARNING`: the root logger's configuration is mutated by the import
itself. -/
theorem C10_import_side_effects (st : LogState) (stgs : Settings) (ce : Level)
    (hce : levelOfName stgs.LOG_LEVEL = some ce)
    (hname : stgs.APP_NAME ≠ "")
    (hroot : (getLogger st.registry "").handlers = []) :
    ∃ st', importLoggerModule st stgs = .ok st' ∧
      (getLogger st'.registry stgs.APP_NAME).handlers =
        [Handler.stream .stdout (.colored stgs.LOG_FORMAT) ce] ∧
      (getLogger st'.registry stgs.APP_NAME).propagate = false ∧
      (getLogger st'.registry "").handlers =
        [Handler.stream .stderr (.plain stgs.LOG_FORMAT) NOTSET] ∧
      (getLogger st'.registry "").level = WARNING := by
  obtain ⟨st1, l, h1, _, hp, hh, hr, _⟩ := setup_logger_spec_noFile st stgs
    stgs.APP_NAME none DEBUG stgs.LOG_FORMAT (5 * 1024 * 1024) 5 ce
    (Or.inr ⟨rfl, hce⟩)
  have hroot1 : (getLogger st1.registry "").handlers = [] := by
    rw [hr, getLogger_setLogger_ne _ _ _ _ (Ne.symm hname)]
    exact hroot
  refine ⟨{ registry :=
              setLogger st1.registry ""
                ({ ({ getLogger st1.registry "" with
                      handlers := (getLogger st1.registry "").handlers ++
                        [Handler.stream .stderr (.plain stgs.LOG_FORMAT) NOTSET] }
                      : Logger) with
                   level := WARNING } : Logger),
            events :=
              st1.events ++ [Event.addHandler ""
                (Handler.stream .stderr (.plain stgs.LOG_FORMAT) NOTSET)] },
    ?_, ?_, ?_, ?_, ?_⟩
  · simp only [importLoggerModule, h1, exceptBind_ok, hroot1, List.isEmpty_nil,
      if_true]
  · rw [getLogger_setLogger_ne _ _ _ _ hname, hr, getLogger_setLogger_self, hh]
  · rw [getLogger_setLogger_ne _ _ _ _ hname, hr, getLogger_setLogger_self, hp]
  · rw [getLogger_setLogger_self]
    simp [hroot1]
  · rw [getLogger_setLogger_self]

/-- Witness for C10 on an empty initial registry. -/
theorem C10_import_side_effects_witness :
    ∃ st', importLoggerModule ⟨[], []⟩ sampleSettings = .ok st' ∧
      (getLogger st'.registry sampleSettings.APP_NAME).handlers =
        [Handler.stream .stdout (.colored sampleSettings.LOG_FORMAT) 10] ∧
      (getLogger st'.registry sampleSettings.APP_NAME).propagate = false ∧
      (getLogger st'.registry "").handlers =
        [Handler.stream .stderr (.plain sampleSettings.LOG_FORMAT) NOTSET] ∧
      (getLogger st'.registry "").level = WARNING :=
  C10_import_side_effects ⟨[], []⟩ sampleSettings 10 rfl (by decide) rfl

/-- C5, counterexample: the claim that a record with an unrecognized
severity passes through uncolored is false — at severity 25 the
formatter prepends the four characters of the f-string rendering of
`None` and appends the reset code, so the output differs from the plain
formatted line. -/
theorem C5_unrecognized_severity_not_plain :
    ColoredFormatter.format "%(message)s"
        { name := "gv", levelno := 25, levelname := "L25", asctime := "t",
          msg := "hi" } ≠
      formatBase "%(message)s"
        { name := "gv", levelno := 25, levelname := "L25", asctime := "t",
          msg := "hi" } := by
  have hfmt : ColoredFormatter.format "%(message)s"
      { name := "gv", levelno := 25, levelname := "L25", asctime := "t",
        msg := "hi" } =
      "None" ++ formatBase "%(message)s"
        { name := "gv", levelno := 25, levelname := "L25", asctime := "t",
          msg := "hi" } ++ RESET := rfl
  intro he
  have hlen : ("None" ++ formatBase "%(message)s"
      { name := "gv", levelno := 25, levelname := "L25", asctime := "t",
        msg := "hi" } ++ RESET).length =
      (formatBase "%(message)s"
        { name := "gv", levelno := 25, levelname := "L25", asctime := "t",
          msg := "hi" }).length := by
    rw [← hfmt, he]
  rw [String.length_append, String.length_append] at hlen
  have h4 : ("None" : String).length = 4 := rfl
  have h5 : RESET.length = 4 := rfl
  rw [h4, h5] at hlen
  omega

/-- C5, amended: each severity in the color table is wrapped in its
fixed color code and the reset suffix; a severity outside the table gets
the literal prefix `"None"` (the f-string rendering of the absent color)
and still the reset suffix — not an uncolored pass-through. -/
theorem C5_colored_formatter_amended (fmt : String) (r : Record) :
    (∀ c, COLORS.lookup r.levelno = some c →
      ColoredFormatter.format fmt r = c ++ formatBase fmt r ++ RESET) ∧
    (COLORS.lookup r.levelno = none →
      ColoredFormatter.format fmt r = "None" ++ formatBase fmt r ++ RESET) := by
  constructor
  · intro c hc
    simp [ColoredFormatter.format, hc]
  · intro hc
    simp [ColoredFormatter.format, hc]

/-- Witness for C5's amended statement: the info tier is wrapped in
cyan, and the out-of-table severity 25 gets the `"None"` prefix. -/
theorem C5_colored_formatter_amended_witness :
    ColoredFormatter.format "%(message)s"
        { name := "gv", levelno := 20, levelname := "INFO", asctime := "t",
          msg := "hi" } =
      "\x1b[36m" ++ formatBase "%(message)s"
        { name := "gv", levelno := 20, levelname := "INFO", asctime := "t",
          msg := "hi" } ++ RESET ∧
    ColoredFormatter.format "%(message)s"
        { name := "gv", levelno := 25, levelname := "L25", asctime := "t",
          msg := "hi" } =
      "None" ++ formatBase "%(message)s"
        { name := "gv", levelno := 25, levelname := "L25", asctime := "t",
          msg := "hi" } ++ RESET :=
  ⟨(C5_colored_formatter_amended "%(message)s"
      { name := "gv", levelno := 20, levelname := "INFO", asctime := "t",
        msg := "hi" }).1 "\x1b[36m" rfl,
   (C5_colored_formatter_amended "%(message)s"
      { name := "gv", levelno := 25, levelname := "L25", asctime := "t",
        msg := "hi" }).2 rfl⟩

end GraphVCS
